import Mathlib

/-
Shallow embedding of the module2 record processor of
powertools-for-aws-lambda-workshop.

Primary source: src/functions/typescript/modules/module2/index.ts
Secondary source (managed-runtime variant):
src/functions/java/.../Module2HandlerComplete.java

External services (the Rekognition-backed labeling call inside
utils.getLabels, the SSM parameter store, the Secrets Manager store, the
reporting API behind reportImageIssue, and the JavaScript JSON.parse
builtin) are modelled as oracles collected in an environment record; the
code under verification is the control flow of index.ts, which is embedded
line by line below. Each external call is also recorded as an event in a
trace, so that claims about which outbound calls happen, how many times
and in which order become statements about the trace.
-/

namespace Module2

/-- Classification of the error object thrown by the external labeling
call (utils.getLabels): the two dedicated error classes from errors.ts,
or any other error. -/
inductive LabelsError where
  | noPersonFound
  | noLabelsFound
  | otherError (msg : String)
deriving DecidableEq, Repr

/-- Runtime JavaScript values that can be thrown while a record is
processed: an error coming out of the labeling call, a plain
`new Error(msg)`, a TypeError from dereferencing undefined, or the
SyntaxError thrown by JSON.parse on invalid input (tagged with the raw
string that failed to parse). -/
inductive JSError where
  | labels (e : LabelsError)
  | error (msg : String)
  | typeError (msg : String)
  | jsonError (raw : String)
deriving DecidableEq, Repr

/-- Minimal model of the JSON values returned by the JSON.parse builtin:
enough to express objects with string keys, strings and null. -/
inductive Json where
  | str (s : String)
  | obj (fields : List (String × Json))
  | nul

/-- JavaScript bracket indexing `value[key]` with a string key on the
values of this model: reading a property of null throws a TypeError (as
`JSON.parse("null")[key]` does); an object yields the property stored
under the key, or undefined when absent; a string primitive is wrapped in
a String object, so indexing it by a property name that is not one of the
String members yields undefined (the lookup names used by this code are
not String members). -/
def Json.index : Json → String → Except JSError (Option Json)
  | .nul, key =>
    .error (.typeError ("Cannot read properties of null (reading " ++ key ++ ")"))
  | .obj fields, key => .ok ((fields.find? (fun p => p.1 == key)).map Prod.snd)
  | .str _, _ => .ok none

/-- One outbound external call made while processing records, as recorded
in the trace. -/
inductive Call where
  | labelsCall (bucket : String) (fileId userId transformedFileKey : Option String)
  | paramLookup (name : String)
  | secretLookup (name : String)
  | reportCall (fileId userId : Option String) (apiUrl apiKey : Option Json)

/-- Environment of the handler module: the three configuration strings
read from environment variables at module load (index.ts lines 16-18) and
the oracles for the external services. `labelsOutcome` is the outcome of
utils.getLabels (`none` = success, `some e` = it throws `e`);
`paramStore`/`secretStore` give the raw string stored under a name
(`none` = absent, mirroring `response.Parameter?.Value` and
`response.SecretString` being undefined); `jsonParse` is the JSON.parse
builtin (`none` = SyntaxError); `reportOutcome` is the outcome of
utils.reportImageIssue (`none` = success, `some msg` = it throws). -/
structure Env where
  s3BucketFiles : String
  apiUrlParameterName : String
  apiKeySecretName : String
  labelsOutcome : String → Option String → Option String → Option String → Option LabelsError
  paramStore : String → Option String
  secretStore : String → Option String
  jsonParse : String → Option Json
  reportOutcome : Option String → Option String → Option Json → Option Json → Option String

/-- Unmarshalled NewImage payload of a stream record: the three fields
the processor destructures (index.ts line 57); each may be absent, in
which case destructuring yields undefined. -/
structure NewImage where
  id : Option String
  userId : Option String
  transformedFileKey : Option String

/-- The `dynamodb` member of a DynamoDB stream record, whose `NewImage`
may be absent. -/
structure StreamRecord where
  NewImage : Option NewImage

/-- A DynamoDB stream record as received by recordHandler; its `dynamodb`
member may be absent. -/
structure DynamoDBRecord where
  dynamodb : Option StreamRecord

/-- Result part of getSecret (index.ts lines 23-34): read SecretString,
throw `Unable to get secret <name>` when it is undefined or empty
(falsy), otherwise JSON.parse it (throwing on invalid JSON) and index the
result by the secret name itself. -/
def getSecretResult (env : Env) (secretName : String) : Except JSError (Option Json) :=
  match env.secretStore secretName with
  | none => .error (.error ("Unable to get secret " ++ secretName))
  | some secret =>
    if secret = "" then .error (.error ("Unable to get secret " ++ secretName))
    else
      match env.jsonParse secret with
      | none => .error (.jsonError secret)
      | some j => j.index secretName

/-- Embedding of getSecret: one GetSecretValueCommand is sent per call,
recorded as a secretLookup event, and the result is `getSecretResult`. -/
def getSecret (env : Env) (secretName : String) :
    List Call × Except JSError (Option Json) :=
  ([Call.secretLookup secretName], getSecretResult env secretName)

/-- Result part of getParameter (index.ts lines 36-49): read
`Parameter?.Value`, throw `Unable to get parameter <name>` when it is
undefined or empty (falsy), otherwise JSON.parse it (throwing on invalid
JSON) and index the result by the parameter path itself. -/
def getParameterResult (env : Env) (parameterPath : String) : Except JSError (Option Json) :=
  match env.paramStore parameterPath with
  | none => .error (.error ("Unable to get parameter " ++ parameterPath))
  | some parameter =>
    if parameter = "" then .error (.error ("Unable to get parameter " ++ parameterPath))
    else
      match env.jsonParse parameter with
      | none => .error (.jsonError parameter)
      | some j => j.index parameterPath

/-- Embedding of getParameter: one GetParameterCommand is sent per call,
recorded as a paramLookup event, and the result is `getParameterResult`. -/
def getParameter (env : Env) (parameterPath : String) :
    List Call × Except JSError (Option Json) :=
  ([Call.paramLookup parameterPath], getParameterResult env parameterPath)

/-- Embedding of the call to utils.getLabels: one labeling call is made,
recorded in the trace, and it returns normally or throws according to the
labeling oracle. -/
def getLabels (env : Env) (bucket : String)
    (fileId userId transformedFileKey : Option String) :
    List Call × Except JSError Unit :=
  ([Call.labelsCall bucket fileId userId transformedFileKey],
    match env.labelsOutcome bucket fileId userId transformedFileKey with
    | none => .ok ()
    | some e => .error (.labels e))

/-- Embedding of the call to utils.reportImageIssue: one report call is
made, recorded in the trace, succeeding or throwing according to the
reporting oracle. -/
def reportImageIssue (env : Env) (fileId userId : Option String)
    (apiUrl apiKey : Option Json) : List Call × Except JSError Unit :=
  ([Call.reportCall fileId userId apiUrl apiKey],
    match env.reportOutcome fileId userId apiUrl apiKey with
    | none => .ok ()
    | some msg => .error (.error msg))

/-- The test `error instanceof NoPersonFoundError || error instanceof
NoLabelsFoundError` of index.ts lines 64-67. -/
def isSoftError : JSError → Bool
  | .labels .noPersonFound => true
  | .labels .noLabelsFound => true
  | _ => false

/-- Embedding of recordHandler (index.ts lines 51-79). The non-null
assertions `record.dynamodb!.NewImage!` are erased at runtime, so a
missing `dynamodb` raises a TypeError when `.NewImage` is read on
undefined, and a missing `NewImage` makes `unmarshall(undefined)` throw;
either way the function fails before any external call. Otherwise the
labeling call is attempted; on NoPersonFoundError or NoLabelsFoundError
the object literal `{apiUrl: await getParameter(..), apiKey: await
getSecret(..)}` evaluates the parameter lookup, then the secret lookup,
then reportImageIssue is called and the function returns; any other
error is rethrown unchanged. -/
def recordHandler (env : Env) (record : DynamoDBRecord) :
    List Call × Except JSError Unit :=
  match record.dynamodb with
  | none => ([], .error (.typeError "Cannot read properties of undefined (reading NewImage)"))
  | some streamRecord =>
    match streamRecord.NewImage with
    | none => ([], .error (.typeError "Cannot convert undefined or null to object"))
    | some data =>
      let fileId := data.id
      let userId := data.userId
      let transformedFileKey := data.transformedFileKey
      let labelsStep := getLabels env env.s3BucketFiles fileId userId transformedFileKey
      match labelsStep.2 with
      | .ok _ => (labelsStep.1, .ok ())
      | .error e =>
        if isSoftError e then
          let paramStep := getParameter env env.apiUrlParameterName
          match paramStep.2 with
          | .error pe => (labelsStep.1 ++ paramStep.1, .error pe)
          | .ok apiUrl =>
            let secretStep := getSecret env env.apiKeySecretName
            match secretStep.2 with
            | .error se => (labelsStep.1 ++ paramStep.1 ++ secretStep.1, .error se)
            | .ok apiKey =>
              let reportStep := reportImageIssue env fileId userId apiUrl apiKey
              (labelsStep.1 ++ paramStep.1 ++ secretStep.1 ++ reportStep.1, reportStep.2)
        else (labelsStep.1, .error e)

/-- Embedding of the handler loop (index.ts lines 81-93): the records are
processed strictly in order; each is passed to recordHandler inside a
try/catch whose catch clause throws `new Error('Error processing
record')`, which aborts the loop, so the remaining records are never
attempted. -/
def handler (env : Env) : List DynamoDBRecord → List Call × Except JSError Unit
  | [] => ([], .ok ())
  | record :: rest =>
    let step := recordHandler env record
    match step.2 with
    | .ok _ =>
      let restStep := handler env rest
      (step.1 ++ restStep.1, restStep.2)
    | .error _ => (step.1, .error (.error "Error processing record"))

/-
Managed-runtime variant: Module2HandlerComplete.java. Its processMessage
reads the three string attributes of the NewImage map with unguarded
map/getter access, catches only ImageDetectionException around the
labeling call, and fetches apiUrl/apiKey through powertools providers
configured with `withMaxAge(900, SECONDS)` — a 900-second max-age cache.
The cache is modelled as a pair of association lists; events assumed to
happen within one max-age window, so a cached entry never expires inside
the modelled run (the 900-second bound far exceeds one Lambda invocation).
-/

/-- Kind carried by an ImageDetectionException thrown by the Java
Utils.getLabels (no person found, or no labels found). -/
inductive JKind where
  | noPersonFound
  | noLabelsFound
deriving DecidableEq, Repr

/-- Exceptions arising while processing one Java stream record. -/
inductive JError where
  | imageDetection (k : JKind)
  | otherError (msg : String)
  | nullPointer
  | paramNotFound (name : String)
  | secretNotFound (name : String)
deriving DecidableEq, Repr

/-- Outbound calls of the Java variant; jParamStoreRead and
jSecretStoreRead are actual reads reaching the stores (a provider `get`
answered from the cache produces no such event). -/
inductive JCall where
  | jLabelsCall (bucket fileId userId transformedFileKey : String)
  | jParamStoreRead (name : String)
  | jSecretStoreRead (name : String)
  | jReportCall (fileId userId apiUrl apiKey : String)
deriving DecidableEq, Repr

/-- Environment of the Java handler: configuration strings and oracles
for the external services, as in the typed-scripting variant. -/
structure JEnv where
  bucketNameFiles : String
  apiUrlParameterName : String
  apiKeySecretName : String
  labelsOutcome : String → String → String → String → Option JError
  ssmStore : String → Option String
  secretsStore : String → Option String
  reportOutcome : String → String → String → String → Option String

/-- Cache state of the two powertools providers (ssmProvider and
secretsProvider are static fields, so the cache persists across records
and invocations of the same container). -/
structure ProviderCache where
  ssmCache : List (String × String)
  secretsCache : List (String × String)
deriving DecidableEq, Repr

/-- Empty provider cache (cold container). -/
def emptyCache : ProviderCache := ⟨[], []⟩

/-- Model of `ssmProvider.withMaxAge(900, SECONDS).get(name)` within one
max-age window: a cached value is returned without touching the store;
otherwise the store is read (one jParamStoreRead event) and the value
cached; an absent value raises an error. -/
def ssmProviderGet (env : JEnv) (cache : ProviderCache) (name : String) :
    ProviderCache × List JCall × Except JError String :=
  match cache.ssmCache.find? (fun p => p.1 == name) with
  | some p => (cache, [], .ok p.2)
  | none =>
    match env.ssmStore name with
    | none => (cache, [JCall.jParamStoreRead name], .error (.paramNotFound name))
    | some v =>
      ({ cache with ssmCache := (name, v) :: cache.ssmCache },
        [JCall.jParamStoreRead name], .ok v)

/-- Model of `secretsProvider.withMaxAge(900, SECONDS).get(name)` within
one max-age window, analogous to `ssmProviderGet`. -/
def secretsProviderGet (env : JEnv) (cache : ProviderCache) (name : String) :
    ProviderCache × List JCall × Except JError String :=
  match cache.secretsCache.find? (fun p => p.1 == name) with
  | some p => (cache, [], .ok p.2)
  | none =>
    match env.secretsStore name with
    | none => (cache, [JCall.jSecretStoreRead name], .error (.secretNotFound name))
    | some v =>
      ({ cache with secretsCache := (name, v) :: cache.secretsCache },
        [JCall.jSecretStoreRead name], .ok v)

/-- The NewImage attribute map of a Java DynamodbStreamRecord: absent, or
a map from attribute names to their string values. -/
structure DynamodbStreamRecord where
  newImage : Option (List (String × String))

/-- Map lookup `data.get(key)` on the attribute map. -/
def lookupField (data : List (String × String)) (key : String) : Option String :=
  (data.find? (fun p => p.1 == key)).map Prod.snd

/-- Embedding of Module2HandlerComplete.processMessage (lines 54-81).
Reading an attribute of a missing NewImage, or calling getS() on a
missing attribute, raises a NullPointerException before any external
call. Then the labeling call is attempted; only ImageDetectionException
is caught, in which case apiUrl is fetched through the SSM provider, then
apiKey through the secrets provider, then reportImageIssue is called and
the exception is swallowed; any other exception propagates. -/
def processMessage (env : JEnv) (cache : ProviderCache)
    (rec : DynamodbStreamRecord) :
    ProviderCache × List JCall × Except JError Unit :=
  match rec.newImage with
  | none => (cache, ([], .error .nullPointer))
  | some data =>
    match lookupField data "id", lookupField data "userId",
        lookupField data "transformedFileKey" with
    | some fileId, some userId, some transformedFileKey =>
      let labelsTrace :=
        [JCall.jLabelsCall env.bucketNameFiles fileId userId transformedFileKey]
      match env.labelsOutcome env.bucketNameFiles fileId userId transformedFileKey with
      | none => (cache, (labelsTrace, .ok ()))
      | some (JError.imageDetection _) =>
        match ssmProviderGet env cache env.apiUrlParameterName with
        | (cache1, paramTrace, .error e) =>
          (cache1, (labelsTrace ++ paramTrace, .error e))
        | (cache1, paramTrace, .ok apiUrl) =>
          match secretsProviderGet env cache1 env.apiKeySecretName with
          | (cache2, secretTrace, .error e) =>
            (cache2, (labelsTrace ++ paramTrace ++ secretTrace, .error e))
          | (cache2, secretTrace, .ok apiKey) =>
            (cache2,
              (labelsTrace ++ paramTrace ++ secretTrace ++
                [JCall.jReportCall fileId userId apiUrl apiKey],
                match env.reportOutcome fileId userId apiUrl apiKey with
                | none => .ok ()
                | some msg => .error (.otherError msg)))
      | some e => (cache, (labelsTrace, .error e))
    | _, _, _ => (cache, ([], .error .nullPointer))

/-
Concrete fixtures used by the witness theorems.
-/

/-- Concrete witness environment: the labeling call always throws
NoPersonFoundError, both stores hold JSON objects keyed by the lookup
names, and the report call succeeds. -/
def envW : Env where
  s3BucketFiles := "files-bucket"
  apiUrlParameterName := "api-url"
  apiKeySecretName := "api-key"
  labelsOutcome := fun _ _ _ _ => some LabelsError.noPersonFound
  paramStore := fun _ => some "paramJson"
  secretStore := fun _ => some "secretJson"
  jsonParse := fun s =>
    if s = "paramJson" then some (Json.obj [("api-url", Json.str "https://api.example")])
    else if s = "secretJson" then some (Json.obj [("api-key", Json.str "k-123")])
    else none
  reportOutcome := fun _ _ _ _ => none

/-- Concrete unmarshalled payload with all three fields present. -/
def dataW : NewImage := ⟨some "file-1", some "user-1", some "key-1"⟩

/-- Concrete stream record member holding `dataW`. -/
def srW : StreamRecord := ⟨some dataW⟩

/-- Concrete DynamoDB record holding `srW`. -/
def recW : DynamoDBRecord := ⟨some srW⟩

/-- The environment `envW` with the labeling outcome replaced by a hard
(unrecognized) error. -/
def envHardW : Env :=
  { envW with labelsOutcome := fun _ _ _ _ => some (LabelsError.otherError "boom") }

/-- The environment `envW` with a labeling call that always succeeds. -/
def envOkW : Env :=
  { envW with labelsOutcome := fun _ _ _ _ => none }

/-
Shared helper lemmas about the branches of recordHandler, used by the
claim theorems below.
-/

/-- Helper: the instanceof test rejects a labeling error that is neither
NoPersonFoundError nor NoLabelsFoundError. -/
theorem isSoftError_eq_false (e : LabelsError)
    (hp : e ≠ LabelsError.noPersonFound) (hl : e ≠ LabelsError.noLabelsFound) :
    isSoftError (.labels e) = false := by
  cases e with
  | noPersonFound => exact absurd rfl hp
  | noLabelsFound => exact absurd rfl hl
  | otherError m => rfl

/-- Helper: when the labeling call succeeds, recordHandler stops after
that single call. -/
theorem recordHandler_success (env : Env) (record : DynamoDBRecord)
    (sr : StreamRecord) (data : NewImage)
    (hrec : record.dynamodb = some sr) (himg : sr.NewImage = some data)
    (hlab : env.labelsOutcome env.s3BucketFiles data.id data.userId
      data.transformedFileKey = none) :
    recordHandler env record =
      ([Call.labelsCall env.s3BucketFiles data.id data.userId data.transformedFileKey],
        Except.ok ()) := by
  simp [recordHandler, hrec, himg, getLabels, hlab]

/-- Helper: when the labeling call throws an error the instanceof test
rejects, recordHandler rethrows it after the single labeling call. -/
theorem recordHandler_hard (env : Env) (record : DynamoDBRecord)
    (sr : StreamRecord) (data : NewImage) (e : LabelsError)
    (hrec : record.dynamodb = some sr) (himg : sr.NewImage = some data)
    (hlab : env.labelsOutcome env.s3BucketFiles data.id data.userId
      data.transformedFileKey = some e)
    (hs : isSoftError (.labels e) = false) :
    recordHandler env record =
      ([Call.labelsCall env.s3BucketFiles data.id data.userId data.transformedFileKey],
        Except.error (JSError.labels e)) := by
  simp [recordHandler, hrec, himg, getLabels, hlab, hs]

/-- Helper: on a soft labeling failure with successful parameter lookup,
secret lookup and report call, recordHandler performs exactly those four
calls in order and returns normally. -/
theorem recordHandler_soft_ok (env : Env) (record : DynamoDBRecord)
    (sr : StreamRecord) (data : NewImage) (e : LabelsError)
    (apiUrl apiKey : Option Json)
    (hrec : record.dynamodb = some sr) (himg : sr.NewImage = some data)
    (hlab : env.labelsOutcome env.s3BucketFiles data.id data.userId
      data.transformedFileKey = some e)
    (hs : isSoftError (.labels e) = true)
    (hparam : getParameterResult env env.apiUrlParameterName = .ok apiUrl)
    (hsecret : getSecretResult env env.apiKeySecretName = .ok apiKey)
    (hreport : env.reportOutcome data.id data.userId apiUrl apiKey = none) :
    recordHandler env record =
      ([Call.labelsCall env.s3BucketFiles data.id data.userId data.transformedFileKey,
        Call.paramLookup env.apiUrlParameterName,
        Call.secretLookup env.apiKeySecretName,
        Call.reportCall data.id data.userId apiUrl apiKey], Except.ok ()) := by
  simp [recordHandler, hrec, himg, getLabels, hlab, hs,
    getParameter, hparam, getSecret, hsecret, reportImageIssue, hreport]

/-- Helper: on a soft labeling failure whose parameter lookup throws,
recordHandler stops after the labeling call and the parameter lookup,
propagating the lookup error. -/
theorem recordHandler_soft_paramError (env : Env) (record : DynamoDBRecord)
    (sr : StreamRecord) (data : NewImage) (e : LabelsError) (pe : JSError)
    (hrec : record.dynamodb = some sr) (himg : sr.NewImage = some data)
    (hlab : env.labelsOutcome env.s3BucketFiles data.id data.userId
      data.transformedFileKey = some e)
    (hs : isSoftError (.labels e) = true)
    (hparam : getParameterResult env env.apiUrlParameterName = .error pe) :
    recordHandler env record =
      ([Call.labelsCall env.s3BucketFiles data.id data.userId data.transformedFileKey,
        Call.paramLookup env.apiUrlParameterName], Except.error pe) := by
  simp [recordHandler, hrec, himg, getLabels, hlab, hs, getParameter, hparam]

/-- Helper: on a soft labeling failure whose parameter lookup succeeds
but whose secret lookup throws, recordHandler stops after the labeling
call, the parameter lookup and the secret lookup, propagating the secret
lookup error; no report call is made. -/
theorem recordHandler_soft_secretError (env : Env) (record : DynamoDBRecord)
    (sr : StreamRecord) (data : NewImage) (e : LabelsError)
    (apiUrl : Option Json) (se : JSError)
    (hrec : record.dynamodb = some sr) (himg : sr.NewImage = some data)
    (hlab : env.labelsOutcome env.s3BucketFiles data.id data.userId
      data.transformedFileKey = some e)
    (hs : isSoftError (.labels e) = true)
    (hparam : getParameterResult env env.apiUrlParameterName = .ok apiUrl)
    (hsecret : getSecretResult env env.apiKeySecretName = .error se) :
    recordHandler env record =
      ([Call.labelsCall env.s3BucketFiles data.id data.userId data.transformedFileKey,
        Call.paramLookup env.apiUrlParameterName,
        Call.secretLookup env.apiKeySecretName], Except.error se) := by
  simp [recordHandler, hrec, himg, getLabels, hlab, hs,
    getParameter, hparam, getSecret, hsecret]

/-- C1: for a record whose labeling call fails with the no-person or
no-labels classification and whose parameter lookup, secret lookup and
report call all succeed, recordHandler performs exactly one parameter
lookup, one secret lookup and one report call, in that order after the
labeling call, and returns normally. -/
theorem C1_soft_failure_exact_calls (env : Env) (record : DynamoDBRecord)
    (sr : StreamRecord) (data : NewImage) (e : LabelsError)
    (apiUrl apiKey : Option Json)
    (hrec : record.dynamodb = some sr) (himg : sr.NewImage = some data)
    (hlab : env.labelsOutcome env.s3BucketFiles data.id data.userId
      data.transformedFileKey = some e)
    (hsoft : e = LabelsError.noPersonFound ∨ e = LabelsError.noLabelsFound)
    (hparam : getParameterResult env env.apiUrlParameterName = .ok apiUrl)
    (hsecret : getSecretResult env env.apiKeySecretName = .ok apiKey)
    (hreport : env.reportOutcome data.id data.userId apiUrl apiKey = none) :
    recordHandler env record =
      ([Call.labelsCall env.s3BucketFiles data.id data.userId data.transformedFileKey,
        Call.paramLookup env.apiUrlParameterName,
        Call.secretLookup env.apiKeySecretName,
        Call.reportCall data.id data.userId apiUrl apiKey], Except.ok ()) := by
  rcases hsoft with h | h <;> subst h <;>
    simp [recordHandler, hrec, himg, getLabels, hlab, isSoftError,
      getParameter, hparam, getSecret, hsecret, reportImageIssue, hreport]

/-- Witness for C1: at the concrete environment and record the hypotheses
hold and the trace is exactly labeling, parameter lookup, secret lookup,
report. -/
theorem C1_soft_failure_exact_calls_witness :
    envW.labelsOutcome envW.s3BucketFiles dataW.id dataW.userId
        dataW.transformedFileKey = some LabelsError.noPersonFound ∧
    getParameterResult envW envW.apiUrlParameterName =
        .ok (some (Json.str "https://api.example")) ∧
    getSecretResult envW envW.apiKeySecretName = .ok (some (Json.str "k-123")) ∧
    recordHandler envW recW =
      ([Call.labelsCall envW.s3BucketFiles dataW.id dataW.userId dataW.transformedFileKey,
        Call.paramLookup envW.apiUrlParameterName,
        Call.secretLookup envW.apiKeySecretName,
        Call.reportCall dataW.id dataW.userId (some (Json.str "https://api.example"))
          (some (Json.str "k-123"))], Except.ok ()) :=
  ⟨rfl, rfl, rfl,
    C1_soft_failure_exact_calls envW recW srW dataW LabelsError.noPersonFound
      (some (Json.str "https://api.example")) (some (Json.str "k-123"))
      rfl rfl rfl (Or.inl rfl) rfl rfl rfl⟩

/-- C2: for a record whose labeling call throws any error other than the
no-person or no-labels classification, recordHandler makes no parameter
lookup, no secret lookup and no report call, and the same error object
propagates unchanged out of the processing of that record. -/
theorem C2_hard_failure_propagates (env : Env) (record : DynamoDBRecord)
    (sr : StreamRecord) (data : NewImage) (e : LabelsError)
    (hrec : record.dynamodb = some sr) (himg : sr.NewImage = some data)
    (hlab : env.labelsOutcome env.s3BucketFiles data.id data.userId
      data.transformedFileKey = some e)
    (hp : e ≠ LabelsError.noPersonFound) (hl : e ≠ LabelsError.noLabelsFound) :
    recordHandler env record =
      ([Call.labelsCall env.s3BucketFiles data.id data.userId data.transformedFileKey],
        Except.error (JSError.labels e)) := by
  have hs : isSoftError (.labels e) = false := by
    cases e with
    | noPersonFound => exact absurd rfl hp
    | noLabelsFound => exact absurd rfl hl
    | otherError m => rfl
  simp [recordHandler, hrec, himg, getLabels, hlab, hs]

/-- Witness for C2: a concrete unrecognized labeling error makes the
processing of the record end with exactly that error and a single
labeling call in the trace. -/
theorem C2_hard_failure_propagates_witness :
    envHardW.labelsOutcome envHardW.s3BucketFiles dataW.id dataW.userId
        dataW.transformedFileKey = some (LabelsError.otherError "boom") ∧
    recordHandler envHardW recW =
      ([Call.labelsCall envHardW.s3BucketFiles dataW.id dataW.userId
          dataW.transformedFileKey],
        Except.error (JSError.labels (LabelsError.otherError "boom"))) :=
  ⟨rfl,
    C2_hard_failure_propagates envHardW recW srW dataW
      (LabelsError.otherError "boom") rfl rfl rfl
      (by simp) (by simp)⟩

/-- C4: for a record whose labeling call succeeds, recordHandler makes no
parameter lookup, no secret lookup and no report call, and completes
normally with the labeling call as its only external call. -/
theorem C4_success_no_further_calls (env : Env) (record : DynamoDBRecord)
    (sr : StreamRecord) (data : NewImage)
    (hrec : record.dynamodb = some sr) (himg : sr.NewImage = some data)
    (hlab : env.labelsOutcome env.s3BucketFiles data.id data.userId
      data.transformedFileKey = none) :
    recordHandler env record =
      ([Call.labelsCall env.s3BucketFiles data.id data.userId data.transformedFileKey],
        Except.ok ()) := by
  simp [recordHandler, hrec, himg, getLabels, hlab]

/-- Witness for C4 at a concrete environment whose labeling call
succeeds. -/
theorem C4_success_no_further_calls_witness :
    envOkW.labelsOutcome envOkW.s3BucketFiles dataW.id dataW.userId
        dataW.transformedFileKey = none ∧
    recordHandler envOkW recW =
      ([Call.labelsCall envOkW.s3BucketFiles dataW.id dataW.userId
          dataW.transformedFileKey], Except.ok ()) :=
  ⟨rfl, C4_success_no_further_calls envOkW recW srW dataW rfl rfl rfl⟩

/-- An environment whose labeling call always throws the given labeling
error; everything else is unchanged. Used to compare the treatment of the
two recognized soft failure kinds. -/
def withLabelsOutcome (env : Env) (e : LabelsError) : Env :=
  { env with labelsOutcome := fun _ _ _ _ => some e }

/-- C3: the soft-failure classification accepts exactly the two error
kinds NoPersonFoundError and NoLabelsFoundError and rejects every other
error, and recordHandler treats the two identically: for every
environment and record, replacing a labeling call that always throws
NoPersonFoundError by one that always throws NoLabelsFoundError yields
the same trace of external calls and the same outcome (credentials
fetched, issue reported, error swallowed). -/
theorem C3_soft_kinds_exactly_two :
    (∀ e : JSError, isSoftError e = true ↔
      (e = JSError.labels LabelsError.noPersonFound ∨
        e = JSError.labels LabelsError.noLabelsFound)) ∧
    (∀ (env : Env) (record : DynamoDBRecord),
      recordHandler (withLabelsOutcome env LabelsError.noPersonFound) record =
        recordHandler (withLabelsOutcome env LabelsError.noLabelsFound) record) := by
  constructor
  · intro e
    cases e with
    | labels le => cases le <;> simp [isSoftError]
    | error m => simp [isSoftError]
    | typeError m => simp [isSoftError]
    | jsonError raw => simp [isSoftError]
  · intro env record
    rcases record with ⟨_ | ⟨_ | data⟩⟩
    · rfl
    · rfl
    · rfl

/-- C5: in the sequential-batch (scripted) handler, given three records
where the first labeling call succeeds and the second throws a hard
(unrecognized) error, the first record is fully processed, the second
aborts the batch, and no external call at all is made for the third
record: the complete trace is the two labeling calls only. -/
theorem C5_hard_failure_aborts_batch (env : Env) (r1 r2 r3 : DynamoDBRecord)
    (sr1 sr2 : StreamRecord) (d1 d2 : NewImage) (e : LabelsError)
    (hrec1 : r1.dynamodb = some sr1) (himg1 : sr1.NewImage = some d1)
    (hrec2 : r2.dynamodb = some sr2) (himg2 : sr2.NewImage = some d2)
    (hok1 : env.labelsOutcome env.s3BucketFiles d1.id d1.userId
      d1.transformedFileKey = none)
    (hlab2 : env.labelsOutcome env.s3BucketFiles d2.id d2.userId
      d2.transformedFileKey = some e)
    (hp : e ≠ LabelsError.noPersonFound) (hl : e ≠ LabelsError.noLabelsFound) :
    handler env [r1, r2, r3] =
      ([Call.labelsCall env.s3BucketFiles d1.id d1.userId d1.transformedFileKey,
        Call.labelsCall env.s3BucketFiles d2.id d2.userId d2.transformedFileKey],
        Except.error (JSError.error "Error processing record")) := by
  have h1 := recordHandler_success env r1 sr1 d1 hrec1 himg1 hok1
  have h2 := recordHandler_hard env r2 sr2 d2 e hrec2 himg2 hlab2
    (isSoftError_eq_false e hp hl)
  simp [handler, h1, h2]

/-- A second concrete record, distinct from `recW`, whose labeling call
under `envBatchW` throws a hard error while the labeling call of `recW`
succeeds. -/
def dataW2 : NewImage := ⟨some "file-2", some "user-2", some "key-2"⟩

/-- Stream record member holding `dataW2`. -/
def srW2 : StreamRecord := ⟨some dataW2⟩

/-- DynamoDB record holding `srW2`. -/
def recW2 : DynamoDBRecord := ⟨some srW2⟩

/-- Environment for the batch witness: labeling succeeds for the payload
of `recW` and throws an unrecognized error for every other payload. -/
def envBatchW : Env :=
  { envW with
    labelsOutcome := fun _ fileId _ _ =>
      if fileId = some "file-1" then none
      else some (LabelsError.otherError "service down") }

/-- Witness for C5: with the first labeling call succeeding and the
second throwing a hard error, the concrete three-record batch produces
exactly two labeling calls and the wrapped batch error. -/
theorem C5_hard_failure_aborts_batch_witness :
    envBatchW.labelsOutcome envBatchW.s3BucketFiles dataW.id dataW.userId
        dataW.transformedFileKey = none ∧
    envBatchW.labelsOutcome envBatchW.s3BucketFiles dataW2.id dataW2.userId
        dataW2.transformedFileKey = some (LabelsError.otherError "service down") ∧
    handler envBatchW [recW, recW2, recW] =
      ([Call.labelsCall envBatchW.s3BucketFiles dataW.id dataW.userId
          dataW.transformedFileKey,
        Call.labelsCall envBatchW.s3BucketFiles dataW2.id dataW2.userId
          dataW2.transformedFileKey],
        Except.error (JSError.error "Error processing record")) :=
  ⟨rfl, rfl,
    C5_hard_failure_aborts_batch envBatchW recW recW2 recW srW srW2 dataW dataW2
      (LabelsError.otherError "service down") rfl rfl rfl rfl rfl rfl
      (by simp) (by simp)⟩

/-- C6: on a soft labeling failure, if the stored parameter value is
missing (absent or empty) the parameter lookup throws the descriptive
error naming the parameter and no report call is made; and if the
parameter lookup succeeds but the stored secret value is missing (absent
or empty) the secret lookup throws the descriptive error naming the
secret and no report call is made. -/
theorem C6_missing_value_descriptive_error (env : Env) (record : DynamoDBRecord)
    (sr : StreamRecord) (data : NewImage) (e : LabelsError)
    (hrec : record.dynamodb = some sr) (himg : sr.NewImage = some data)
    (hlab : env.labelsOutcome env.s3BucketFiles data.id data.userId
      data.transformedFileKey = some e)
    (hsoft : e = LabelsError.noPersonFound ∨ e = LabelsError.noLabelsFound) :
    ((env.paramStore env.apiUrlParameterName = none ∨
        env.paramStore env.apiUrlParameterName = some "") →
      recordHandler env record =
        ([Call.labelsCall env.s3BucketFiles data.id data.userId data.transformedFileKey,
          Call.paramLookup env.apiUrlParameterName],
          Except.error (JSError.error
            ("Unable to get parameter " ++ env.apiUrlParameterName)))) ∧
    (∀ apiUrl : Option Json,
      getParameterResult env env.apiUrlParameterName = .ok apiUrl →
      (env.secretStore env.apiKeySecretName = none ∨
        env.secretStore env.apiKeySecretName = some "") →
      recordHandler env record =
        ([Call.labelsCall env.s3BucketFiles data.id data.userId data.transformedFileKey,
          Call.paramLookup env.apiUrlParameterName,
          Call.secretLookup env.apiKeySecretName],
          Except.error (JSError.error
            ("Unable to get secret " ++ env.apiKeySecretName)))) := by
  have hs : isSoftError (.labels e) = true := by
    rcases hsoft with h | h <;> subst h <;> rfl
  constructor
  · intro hmissing
    refine recordHandler_soft_paramError env record sr data e _ hrec himg hlab hs ?_
    rcases hmissing with h | h <;> simp [getParameterResult, h]
  · intro apiUrl hparam hmissing
    refine recordHandler_soft_secretError env record sr data e apiUrl _
      hrec himg hlab hs hparam ?_
    rcases hmissing with h | h <;> simp [getSecretResult, h]

/-- Environment for the C6 witness: labeling throws NoLabelsFoundError
and the parameter store has no value under any name. -/
def envNoParamW : Env :=
  { envW with
    labelsOutcome := fun _ _ _ _ => some LabelsError.noLabelsFound,
    paramStore := fun _ => none }

/-- Witness for C6: with an absent parameter value, the concrete record
ends with the descriptive parameter error and a trace without any report
call. -/
theorem C6_missing_value_descriptive_error_witness :
    envNoParamW.paramStore envNoParamW.apiUrlParameterName = none ∧
    recordHandler envNoParamW recW =
      ([Call.labelsCall envNoParamW.s3BucketFiles dataW.id dataW.userId
          dataW.transformedFileKey,
        Call.paramLookup envNoParamW.apiUrlParameterName],
        Except.error (JSError.error "Unable to get parameter api-url")) :=
  ⟨rfl,
    (C6_missing_value_descriptive_error envNoParamW recW srW dataW
      LabelsError.noLabelsFound rfl rfl rfl (Or.inr rfl)).1 (Or.inl rfl)⟩

/-
Fixtures and counters for the claims about repeated processing.
-/

/-- Count of the parameter-store reads in a Java trace. -/
def countParamReads (calls : List JCall) : Nat :=
  (calls.filter fun c =>
    match c with | JCall.jParamStoreRead _ => true | _ => false).length

/-- Count of the secret-store reads in a Java trace. -/
def countSecretReads (calls : List JCall) : Nat :=
  (calls.filter fun c =>
    match c with | JCall.jSecretStoreRead _ => true | _ => false).length

/-- Count of the report calls in a Java trace. -/
def countReports (calls : List JCall) : Nat :=
  (calls.filter fun c =>
    match c with | JCall.jReportCall _ _ _ _ => true | _ => false).length

/-- Combined trace of processing the same Java record twice in a row,
starting from a cold provider cache and threading the cache from the
first call into the second, as the static providers do. -/
def jRunTwice (env : JEnv) (rec : DynamodbStreamRecord) : List JCall :=
  let first := processMessage env emptyCache rec
  let second := processMessage env first.1 rec
  first.2.1 ++ second.2.1

/-- Concrete Java environment: labeling always throws an
ImageDetectionException, both stores hold values, reporting succeeds. -/
def jEnvW : JEnv where
  bucketNameFiles := "files-bucket"
  apiUrlParameterName := "api-url"
  apiKeySecretName := "api-key"
  labelsOutcome := fun _ _ _ _ => some (JError.imageDetection JKind.noPersonFound)
  ssmStore := fun _ => some "https://api.example"
  secretsStore := fun _ => some "k-123"
  reportOutcome := fun _ _ _ _ => none

/-- Concrete Java stream record with the three required attributes. -/
def jRecW : DynamodbStreamRecord :=
  ⟨some [("id", "file-1"), ("userId", "user-1"), ("transformedFileKey", "key-1")]⟩

/-- C7 counterexample: in the managed-runtime variant two consecutive
soft failures do NOT each cause their own parameter-store and
secret-store read: the providers are configured with a 900-second
max-age cache, so the concrete double run files two reports but reaches
the parameter store and the secret store only once. -/
theorem C7_java_cache_counterexample :
    countReports (jRunTwice jEnvW jRecW) = 2 ∧
    countParamReads (jRunTwice jEnvW jRecW) = 1 ∧
    countSecretReads (jRunTwice jEnvW jRecW) = 1 :=
  ⟨rfl, rfl, rfl⟩

/-- C7 (amended): in the typed-scripting variant the credential pair is
fetched freshly in every soft-failure branch — two soft failures in one
batch cause two parameter lookups and two secret lookups — while in the
managed-runtime variant the providers serve a second soft failure within
the 900-second max-age window from their cache, so the second processing
performs no parameter-store or secret-store read at all. -/
theorem C7_fresh_fetch_vs_provider_cache (env : Env) (r1 r2 : DynamoDBRecord)
    (sr1 sr2 : StreamRecord) (d1 d2 : NewImage) (e1 e2 : LabelsError)
    (u1 k1 u2 k2 : Option Json)
    (hrec1 : r1.dynamodb = some sr1) (himg1 : sr1.NewImage = some d1)
    (hrec2 : r2.dynamodb = some sr2) (himg2 : sr2.NewImage = some d2)
    (hlab1 : env.labelsOutcome env.s3BucketFiles d1.id d1.userId
      d1.transformedFileKey = some e1)
    (hlab2 : env.labelsOutcome env.s3BucketFiles d2.id d2.userId
      d2.transformedFileKey = some e2)
    (hs1 : isSoftError (.labels e1) = true) (hs2 : isSoftError (.labels e2) = true)
    (hparam1 : getParameterResult env env.apiUrlParameterName = .ok u1)
    (hsecret1 : getSecretResult env env.apiKeySecretName = .ok k1)
    (hreport1 : env.reportOutcome d1.id d1.userId u1 k1 = none)
    (hparam2 : getParameterResult env env.apiUrlParameterName = .ok u2)
    (hsecret2 : getSecretResult env env.apiKeySecretName = .ok k2)
    (hreport2 : env.reportOutcome d2.id d2.userId u2 k2 = none) :
    handler env [r1, r2] =
      ([Call.labelsCall env.s3BucketFiles d1.id d1.userId d1.transformedFileKey,
        Call.paramLookup env.apiUrlParameterName,
        Call.secretLookup env.apiKeySecretName,
        Call.reportCall d1.id d1.userId u1 k1,
        Call.labelsCall env.s3BucketFiles d2.id d2.userId d2.transformedFileKey,
        Call.paramLookup env.apiUrlParameterName,
        Call.secretLookup env.apiKeySecretName,
        Call.reportCall d2.id d2.userId u2 k2], Except.ok ()) ∧
    (∀ (jenv : JEnv) (data : List (String × String))
      (fileId userId tKey v kv : String) (k : JKind),
      lookupField data "id" = some fileId →
      lookupField data "userId" = some userId →
      lookupField data "transformedFileKey" = some tKey →
      jenv.labelsOutcome jenv.bucketNameFiles fileId userId tKey =
        some (JError.imageDetection k) →
      jenv.ssmStore jenv.apiUrlParameterName = some v →
      jenv.secretsStore jenv.apiKeySecretName = some kv →
      (processMessage jenv
          (processMessage jenv emptyCache ⟨some data⟩).1 ⟨some data⟩).2.1 =
        [JCall.jLabelsCall jenv.bucketNameFiles fileId userId tKey,
          JCall.jReportCall fileId userId v kv]) := by
  constructor
  · have h1 := recordHandler_soft_ok env r1 sr1 d1 e1 u1 k1 hrec1 himg1 hlab1 hs1
      hparam1 hsecret1 hreport1
    have h2 := recordHandler_soft_ok env r2 sr2 d2 e2 u2 k2 hrec2 himg2 hlab2 hs2
      hparam2 hsecret2 hreport2
    simp [handler, h1, h2]
  · intro jenv data fileId userId tKey v kv k hid huser htkey hlab hssm hsecrets
    have hfirst :
        (processMessage jenv emptyCache ⟨some data⟩).1 =
          ⟨[(jenv.apiUrlParameterName, v)], [(jenv.apiKeySecretName, kv)]⟩ := by
      simp [processMessage, hid, huser, htkey, hlab, ssmProviderGet,
        secretsProviderGet, emptyCache, hssm, hsecrets]
    rw [hfirst]
    simp [processMessage, hid, huser, htkey, hlab, ssmProviderGet,
      secretsProviderGet, hssm, hsecrets]

/-- Witness for the amended C7: the concrete two-record batch in the
typed-scripting variant fetches the credentials twice, and the concrete
double run in the managed-runtime variant serves the second soft failure
from the cache. -/
theorem C7_fresh_fetch_vs_provider_cache_witness :
    handler envW [recW, recW] =
      ([Call.labelsCall envW.s3BucketFiles dataW.id dataW.userId dataW.transformedFileKey,
        Call.paramLookup envW.apiUrlParameterName,
        Call.secretLookup envW.apiKeySecretName,
        Call.reportCall dataW.id dataW.userId (some (Json.str "https://api.example"))
          (some (Json.str "k-123")),
        Call.labelsCall envW.s3BucketFiles dataW.id dataW.userId dataW.transformedFileKey,
        Call.paramLookup envW.apiUrlParameterName,
        Call.secretLookup envW.apiKeySecretName,
        Call.reportCall dataW.id dataW.userId (some (Json.str "https://api.example"))
          (some (Json.str "k-123"))], Except.ok ()) ∧
    (processMessage jEnvW (processMessage jEnvW emptyCache jRecW).1 jRecW).2.1 =
      [JCall.jLabelsCall jEnvW.bucketNameFiles "file-1" "user-1" "key-1",
        JCall.jReportCall "file-1" "user-1" "https://api.example" "k-123"] :=
  ⟨(C7_fresh_fetch_vs_provider_cache envW recW recW srW srW dataW dataW
      LabelsError.noPersonFound LabelsError.noPersonFound
      (some (Json.str "https://api.example")) (some (Json.str "k-123"))
      (some (Json.str "https://api.example")) (some (Json.str "k-123"))
      rfl rfl rfl rfl rfl rfl rfl rfl rfl rfl rfl rfl rfl rfl).1,
    (C7_fresh_fetch_vs_provider_cache envW recW recW srW srW dataW dataW
      LabelsError.noPersonFound LabelsError.noPersonFound
      (some (Json.str "https://api.example")) (some (Json.str "k-123"))
      (some (Json.str "https://api.example")) (some (Json.str "k-123"))
      rfl rfl rfl rfl rfl rfl rfl rfl rfl rfl rfl rfl rfl rfl).2
      jEnvW [("id", "file-1"), ("userId", "user-1"), ("transformedFileKey", "key-1")]
      "file-1" "user-1" "key-1" "https://api.example" "k-123" JKind.noPersonFound
      rfl rfl rfl rfl rfl rfl⟩

/-- C8: there is no idempotency guard. For every environment the trace of
recordHandler on a record with a payload starts with a fresh labeling
call, and processing the same soft-failing record twice in one batch
performs the full four-call sequence twice. -/
theorem C8_no_idempotency_guard (env : Env) (record : DynamoDBRecord)
    (sr : StreamRecord) (data : NewImage) (e : LabelsError)
    (apiUrl apiKey : Option Json)
    (hrec : record.dynamodb = some sr) (himg : sr.NewImage = some data)
    (hlab : env.labelsOutcome env.s3BucketFiles data.id data.userId
      data.transformedFileKey = some e)
    (hs : isSoftError (.labels e) = true)
    (hparam : getParameterResult env env.apiUrlParameterName = .ok apiUrl)
    (hsecret : getSecretResult env env.apiKeySecretName = .ok apiKey)
    (hreport : env.reportOutcome data.id data.userId apiUrl apiKey = none) :
    (∀ env2 : Env, ((recordHandler env2 record).1).head? =
      some (Call.labelsCall env2.s3BucketFiles data.id data.userId
        data.transformedFileKey)) ∧
    handler env [record, record] =
      ([Call.labelsCall env.s3BucketFiles data.id data.userId data.transformedFileKey,
        Call.paramLookup env.apiUrlParameterName,
        Call.secretLookup env.apiKeySecretName,
        Call.reportCall data.id data.userId apiUrl apiKey,
        Call.labelsCall env.s3BucketFiles data.id data.userId data.transformedFileKey,
        Call.paramLookup env.apiUrlParameterName,
        Call.secretLookup env.apiKeySecretName,
        Call.reportCall data.id data.userId apiUrl apiKey], Except.ok ()) := by
  constructor
  · intro env2
    rcases houtcome : env2.labelsOutcome env2.s3BucketFiles data.id data.userId
      data.transformedFileKey with _ | e2
    · simp [recordHandler, hrec, himg, getLabels, houtcome]
    · cases hsErr : isSoftError (.labels e2) with
      | false => simp [recordHandler, hrec, himg, getLabels, houtcome, hsErr]
      | true =>
        rcases hpr : getParameterResult env2 env2.apiUrlParameterName with pe | u2
        · simp [recordHandler, hrec, himg, getLabels, houtcome, hsErr,
            getParameter, hpr]
        · rcases hsr : getSecretResult env2 env2.apiKeySecretName with se | k2
          · simp [recordHandler, hrec, himg, getLabels, houtcome, hsErr,
              getParameter, hpr, getSecret, hsr]
          · simp [recordHandler, hrec, himg, getLabels, houtcome, hsErr,
              getParameter, hpr, getSecret, hsr, reportImageIssue]
  · have h := recordHandler_soft_ok env record sr data e apiUrl apiKey hrec himg
      hlab hs hparam hsecret hreport
    simp [handler, h]

/-- Witness for C8: processing the concrete soft-failing record twice
yields the full four-call sequence twice. -/
theorem C8_no_idempotency_guard_witness :
    ((recordHandler envW recW).1).head? =
      some (Call.labelsCall envW.s3BucketFiles dataW.id dataW.userId
        dataW.transformedFileKey) ∧
    handler envW [recW, recW] =
      ([Call.labelsCall envW.s3BucketFiles dataW.id dataW.userId dataW.transformedFileKey,
        Call.paramLookup envW.apiUrlParameterName,
        Call.secretLookup envW.apiKeySecretName,
        Call.reportCall dataW.id dataW.userId (some (Json.str "https://api.example"))
          (some (Json.str "k-123")),
        Call.labelsCall envW.s3BucketFiles dataW.id dataW.userId dataW.transformedFileKey,
        Call.paramLookup envW.apiUrlParameterName,
        Call.secretLookup envW.apiKeySecretName,
        Call.reportCall dataW.id dataW.userId (some (Json.str "https://api.example"))
          (some (Json.str "k-123"))], Except.ok ()) :=
  ⟨(C8_no_idempotency_guard envW recW srW dataW LabelsError.noPersonFound
      (some (Json.str "https://api.example")) (some (Json.str "k-123"))
      rfl rfl rfl rfl rfl rfl rfl).1 envW,
    (C8_no_idempotency_guard envW recW srW dataW LabelsError.noPersonFound
      (some (Json.str "https://api.example")) (some (Json.str "k-123"))
      rfl rfl rfl rfl rfl rfl rfl).2⟩

/-- C9: the processor dereferences the change payload unconditionally.
In the typed variant a record without a dynamodb member or without a
NewImage fails with a TypeError before any external call; in the
managed-runtime variant a missing NewImage map or a missing id attribute
raises a NullPointerException before any external call. A record without
the payload is therefore outside the defined behavior of the processor. -/
theorem C9_payload_precondition :
    (∀ (env : Env) (record : DynamoDBRecord), record.dynamodb = none →
      recordHandler env record =
        ([], Except.error (JSError.typeError
          "Cannot read properties of undefined (reading NewImage)"))) ∧
    (∀ (env : Env) (record : DynamoDBRecord) (sr : StreamRecord),
      record.dynamodb = some sr → sr.NewImage = none →
      recordHandler env record =
        ([], Except.error (JSError.typeError
          "Cannot convert undefined or null to object"))) ∧
    (∀ (jenv : JEnv) (cache : ProviderCache) (rec : DynamodbStreamRecord),
      rec.newImage = none →
      processMessage jenv cache rec = (cache, ([], Except.error JError.nullPointer))) ∧
    (∀ (jenv : JEnv) (cache : ProviderCache) (data : List (String × String)),
      lookupField data "id" = none →
      processMessage jenv cache ⟨some data⟩ =
        (cache, ([], Except.error JError.nullPointer))) := by
  refine ⟨?_, ?_, ?_, ?_⟩
  · intro env record h
    simp [recordHandler, h]
  · intro env record sr h h2
    simp [recordHandler, h, h2]
  · intro jenv cache rec h
    simp [processMessage, h]
  · intro jenv cache data h
    simp [processMessage, h]

/-- Witness for C9: a concrete record without a dynamodb member crashes
the typed processor, and a concrete Java record without a NewImage map
crashes processMessage, both with an empty trace. -/
theorem C9_payload_precondition_witness :
    recordHandler envW ⟨none⟩ =
      ([], Except.error (JSError.typeError
        "Cannot read properties of undefined (reading NewImage)")) ∧
    processMessage jEnvW emptyCache ⟨none⟩ =
      (emptyCache, ([], Except.error JError.nullPointer)) :=
  ⟨C9_payload_precondition.1 envW ⟨none⟩ rfl,
    C9_payload_precondition.2.2.1 jEnvW emptyCache ⟨none⟩ rfl⟩

/-- Environment whose parameter store holds the non-empty JSON text of an
empty object, so the parameter lookup returns undefined. -/
def envEmptyObjW : Env :=
  { envW with
    paramStore := fun _ => some "\x7b\x7d",
    jsonParse := fun s => if s = "\x7b\x7d" then some (Json.obj []) else none }

/-- Environment whose parameter store holds a non-empty string that is
not valid JSON, so JSON.parse throws inside the parameter lookup. -/
def envBadJsonW : Env :=
  { envW with
    paramStore := fun _ => some "not json",
    jsonParse := fun _ => none }

/-- Helper: when the stored, non-empty parameter value parses to the
JSON value null, the lookup does not return undefined: indexing null
throws a TypeError, which propagates out of getParameter — mirroring
`JSON.parse("null")[parameterPath]` in the source. -/
theorem getParameterResult_null_typeError (env : Env) (name raw : String)
    (h : env.paramStore name = some raw) (hne : raw ≠ "")
    (hj : env.jsonParse raw = some Json.nul) :
    getParameterResult env name =
      .error (.typeError ("Cannot read properties of null (reading " ++ name ++ ")")) := by
  simp [getParameterResult, h, hne, hj, Json.index]

/-- Helper: the secret lookup likewise throws a TypeError when the
stored, non-empty secret value parses to the JSON value null. -/
theorem getSecretResult_null_typeError (env : Env) (name raw : String)
    (h : env.secretStore name = some raw) (hne : raw ≠ "")
    (hj : env.jsonParse raw = some Json.nul) :
    getSecretResult env name =
      .error (.typeError ("Cannot read properties of null (reading " ++ name ++ ")")) := by
  simp [getSecretResult, h, hne, hj, Json.index]

/-- C10: getParameter and getSecret do not return the stored value: when
the store holds a non-empty string that parses to a JSON object, each
returns the entry of that object keyed by the lookup name itself (found
by name among the fields of the parsed object, undefined when that key
is absent, as the concrete empty-object environment shows), and each
throws instead of returning when the stored string is not valid JSON. -/
theorem C10_lookup_parses_and_indexes :
    (∀ (env : Env) (name raw : String) (fields : List (String × Json)),
      env.paramStore name = some raw → raw ≠ "" →
      env.jsonParse raw = some (Json.obj fields) →
      getParameterResult env name =
        .ok ((fields.find? (fun p => p.1 == name)).map Prod.snd)) ∧
    (∀ (env : Env) (name raw : String) (fields : List (String × Json)),
      env.secretStore name = some raw → raw ≠ "" →
      env.jsonParse raw = some (Json.obj fields) →
      getSecretResult env name =
        .ok ((fields.find? (fun p => p.1 == name)).map Prod.snd)) ∧
    (∀ (env : Env) (name raw : String),
      env.paramStore name = some raw → raw ≠ "" → env.jsonParse raw = none →
      getParameterResult env name = .error (.jsonError raw)) ∧
    (∀ (env : Env) (name raw : String),
      env.secretStore name = some raw → raw ≠ "" → env.jsonParse raw = none →
      getSecretResult env name = .error (.jsonError raw)) ∧
    (envEmptyObjW.paramStore envEmptyObjW.apiUrlParameterName = some "\x7b\x7d" ∧
      getParameterResult envEmptyObjW envEmptyObjW.apiUrlParameterName = .ok none) := by
  refine ⟨?_, ?_, ?_, ?_, rfl, rfl⟩
  · intro env name raw fields h hne hj
    simp [getParameterResult, h, hne, hj, Json.index]
  · intro env name raw fields h hne hj
    simp [getSecretResult, h, hne, hj, Json.index]
  · intro env name raw h hne hj
    simp [getParameterResult, h, hne, hj]
  · intro env name raw h hne hj
    simp [getSecretResult, h, hne, hj]

/-- Witness for C10: at the concrete environments the parameter lookup
returns the api-url entry of the parsed object, and throws on the
environment whose stored value is not valid JSON. -/
theorem C10_lookup_parses_and_indexes_witness :
    getParameterResult envW "api-url" = .ok (some (Json.str "https://api.example")) ∧
    getSecretResult envW "api-key" = .ok (some (Json.str "k-123")) ∧
    getParameterResult envBadJsonW "api-url" = .error (.jsonError "not json") :=
  ⟨C10_lookup_parses_and_indexes.1 envW "api-url" "paramJson"
      [("api-url", Json.str "https://api.example")] rfl (by decide) rfl,
    C10_lookup_parses_and_indexes.2.1 envW "api-key" "secretJson"
      [("api-key", Json.str "k-123")] rfl (by decide) rfl,
    C10_lookup_parses_and_indexes.2.2.1 envBadJsonW "api-url" "not json"
      rfl (by decide) rfl⟩

end Module2
